import Mathlib

/-!
Verification of the GL context lifecycle unit (renderer/gl/glContext.cc).

The development shallowly embeds the parts of the source relevant to the
frozen claims:

* the device visibility resolver of the device-direct (EGL) backend
  constructor (lines 155-183), parameterised by the outcome of the
  per-device readability probe (check_nvidia_readable);
* the process-wide live-context counter (NUM_EGLCONTEXT_ALIVE) and the
  constructor/destructor effects on it;
* the configuration-count check of the device-direct backend (lines
  198-202);
* the diagnostic output of GLContext::printInfo (lines 91-99) as the list
  of lines written to the diagnostic stream;
* the construction and destruction call sequences of the backends as
  lists of actions in source order, each construction call annotated with
  whether a validation check immediately follows it in the source.

Fatal aborts (error_exit, which never returns) are modelled with Except:
an error value means the abort capability was invoked with that error.
-/

/-- Errors with which the device visibility resolver invokes the fatal
abort capability (error_exit). -/
inductive EglError where
  /-- line 169: eglQueryDevicesEXT() cannot find any EGL devices. -/
  | noDevices
  /-- line 173: Request device d but only found n devices. -/
  | outOfRange (device : Int) (found : Nat)
  deriving DecidableEq, Repr

/-- C++ vector/array indexing with an int index, made total: none models an
unguarded out-of-bounds access (undefined behaviour in the source). -/
def listGetInt (l : List Nat) (i : Int) : Option Nat :=
  if 0 ≤ i then l[i.toNat]? else none

/-- The visibility list built at lines 157-170: for more than one
enumerated device, the enumeration indices whose device file is readable,
in ascending enumeration order; for exactly one device, the singleton 0
with no probe attempted; empty otherwise (that case aborts before the
list is used). -/
def visible_devices (readable : Nat → Bool) (numDevices : Nat) : List Nat :=
  if 1 < numDevices then (List.range numDevices).filter readable
  else if numDevices = 1 then [0]
  else []

/-- The device visibility resolver of the EGLContext constructor (lines
155-183). Input: the probe outcome, the enumerated device count, and the
requested logical device index (a C++ int, so possibly negative). Output:
the enumerated device handle finally passed to eglGetPlatformDisplayEXT
(device handles are identified with their enumeration index, so the
enumerated-device array is List.range numDevices); none models an
unguarded out-of-bounds array access. -/
def resolvePhysical (readable : Nat → Bool) (numDevices : Nat) (device : Int) :
    Except EglError (Option Nat) :=
  if numDevices = 0 then Except.error EglError.noDevices
  else if ((visible_devices readable numDevices).length : Int) ≤ device then
    Except.error (EglError.outOfRange device (visible_devices readable numDevices).length)
  else if (visible_devices readable numDevices).length = numDevices then
    Except.ok (listGetInt (List.range numDevices) device)
  else
    Except.ok (((listGetInt (visible_devices readable numDevices) device).map
      (fun v => (v : Int))).bind fun p => listGetInt (List.range numDevices) p)

/-- Initial value of the process-wide live-context counter
NUM_EGLCONTEXT_ALIVE (line 28). -/
def NUM_EGLCONTEXT_ALIVE_init : Int := 0

/-- Effect of the EGLContext constructor on the counter:
NUM_EGLCONTEXT_ALIVE.fetch_add(1) at line 133. -/
def eglConstructCounter (c : Int) : Int := c + 1

/-- Effect of the EGLContext destructor on the counter: the fetch_sub(1)
call at line 228 is commented out in the source, so destruction leaves
the counter unchanged. -/
def eglDestructCounter (c : Int) : Int := c

/-- Counter value after k successful constructions. -/
def counterAfterConstructions : Nat → Int
  | 0 => NUM_EGLCONTEXT_ALIVE_init
  | k + 1 => eglConstructCounter (counterAfterConstructions k)

/-- Counter value after k successful constructions followed by j
destructions. -/
def counterAfter (k : Nat) : Nat → Int
  | 0 => counterAfterConstructions k
  | j + 1 => eglDestructCounter (counterAfter k j)

/-- Fatal message of the configuration-count check (line 201). -/
def eglChooseConfigMsg : String :=
  "Cannot create configs for EGL! You driver may not support EGL."

/-- The configuration negotiation check of the device-direct backend
(lines 200-202): after requesting a single config slot from
eglChooseConfig, any returned count other than exactly 1 aborts. -/
def eglConfigCountCheck (numConfigs : Int) : Except String Unit :=
  if numConfigs ≠ 1 then Except.error eglChooseConfigMsg else Except.ok ()

/-- The lines GLContext::printInfo (lines 91-99) writes to the diagnostic
stream (cerr), given the four strings the current context reports. -/
def printInfo (glVersion glslVersion vendor renderer : String) : List String :=
  ["----------- OpenGL Context Info --------------",
   "GL Version: " ++ glVersion,
   "GLSL Version: " ++ glslVersion,
   "Vendor: " ++ vendor,
   "Renderer: " ++ renderer,
   "----------------------------------------------"]

/-- Actions performed by backend constructors and destructors, in source
order: native API calls plus the live-context counter update. -/
inductive CtxAction where
  | counterIncrement
  | eglGetProcAddress
  | eglQueryDevicesEXT
  | eglGetPlatformDisplayEXT
  | eglInitialize
  | eglChooseConfig
  | eglBindAPI
  | eglCreateContext
  | eglMakeCurrent
  | eglDestroyContext
  | eglTerminate
  | glViewport
  | xOpenDisplay
  | glXChooseFBConfig
  | glXGetProcAddressARB
  | glXCreateContextAttribsARB
  | glXCreatePbuffer
  | xFree
  | xSync
  | glXMakeContextCurrent
  | glXUnmakeContextCurrent
  | glXDestroyContext
  | glXDestroyPbuffer
  | xCloseDisplay
  | glfwInit
  | glfwCreateWindow
  | glfwMakeContextCurrent
  | glfwTerminate
  deriving DecidableEq, Repr

/-- Actions of the EGLContext constructor (lines 132-224) in source
order. The counter increment at line 133 is the first statement of the
constructor body. -/
def eglConstructSeq : List CtxAction :=
  [CtxAction.counterIncrement, CtxAction.eglGetProcAddress, CtxAction.eglQueryDevicesEXT,
   CtxAction.eglGetPlatformDisplayEXT, CtxAction.eglInitialize, CtxAction.eglChooseConfig,
   CtxAction.eglBindAPI, CtxAction.eglCreateContext, CtxAction.eglMakeCurrent,
   CtxAction.glViewport]

/-- Actions of the EGLContext destructor (lines 226-233) in source order. -/
def eglDestroySeq : List CtxAction :=
  [CtxAction.eglDestroyContext, CtxAction.eglTerminate]

/-- Actions of the GLXHeadlessContext constructor (lines 235-260) in
source order. -/
def glxConstructSeq : List CtxAction :=
  [CtxAction.xOpenDisplay, CtxAction.glXChooseFBConfig, CtxAction.glXGetProcAddressARB,
   CtxAction.glXCreateContextAttribsARB, CtxAction.glXCreatePbuffer, CtxAction.xFree,
   CtxAction.xSync, CtxAction.glXMakeContextCurrent, CtxAction.glViewport]

/-- Actions of the GLXHeadlessContext destructor (lines 262-267) in
source order; the glXMakeContextCurrent call with null drawables and null
context at line 263 is the clear-current call. -/
def glxDestroySeq : List CtxAction :=
  [CtxAction.glXUnmakeContextCurrent, CtxAction.glXDestroyContext,
   CtxAction.glXDestroyPbuffer, CtxAction.xCloseDisplay]

/-- The teardown call that undoes each EGL construction call: eglTerminate
undoes eglInitialize and eglDestroyContext undoes eglCreateContext; the
remaining construction actions acquire no resource with a dedicated
teardown call in this unit. -/
def eglTeardownOf : CtxAction → Option CtxAction
  | CtxAction.eglInitialize => some CtxAction.eglTerminate
  | CtxAction.eglCreateContext => some CtxAction.eglDestroyContext
  | _ => none

/-- The teardown call that undoes each GLX construction call. -/
def glxTeardownOf : CtxAction → Option CtxAction
  | CtxAction.xOpenDisplay => some CtxAction.xCloseDisplay
  | CtxAction.glXCreateContextAttribsARB => some CtxAction.glXDestroyContext
  | CtxAction.glXCreatePbuffer => some CtxAction.glXDestroyPbuffer
  | CtxAction.glXMakeContextCurrent => some CtxAction.glXUnmakeContextCurrent
  | _ => none

/-- EGLContext constructor native calls, each paired with whether a
validation check is placed immediately after it in the source: the
eglGetProcAddress results are null-checked (line 151), the device count
returned by eglQueryDevicesEXT is classified with a fatal zero branch
(lines 158-170), eglInitialize/eglChooseConfig/eglBindAPI/eglCreateContext/
eglMakeCurrent are each followed by a check (lines 189-221); the display
handle returned by eglGetPlatformDisplayEXT (line 183) and the glViewport
call (line 88) are not checked. -/
def eglConstructChecked : List (CtxAction × Bool) :=
  [(CtxAction.eglGetProcAddress, true), (CtxAction.eglQueryDevicesEXT, true),
   (CtxAction.eglGetPlatformDisplayEXT, false), (CtxAction.eglInitialize, true),
   (CtxAction.eglChooseConfig, true), (CtxAction.eglBindAPI, true),
   (CtxAction.eglCreateContext, true), (CtxAction.eglMakeCurrent, true),
   (CtxAction.glViewport, false)]

/-- GLXHeadlessContext constructor native calls with check annotations:
only the display connection (lines 237-238) and the make-current call
(lines 256-257) are validated; the framebuffer-config query, the dynamic
function-pointer resolution, the context creation and the pbuffer
creation (lines 242-252) have no check after them. -/
def glxConstructChecked : List (CtxAction × Bool) :=
  [(CtxAction.xOpenDisplay, true), (CtxAction.glXChooseFBConfig, false),
   (CtxAction.glXGetProcAddressARB, false), (CtxAction.glXCreateContextAttribsARB, false),
   (CtxAction.glXCreatePbuffer, false), (CtxAction.xFree, false), (CtxAction.xSync, false),
   (CtxAction.glXMakeContextCurrent, true), (CtxAction.glViewport, false)]

/-- GLFWContext constructor native calls with check annotations: only
window creation is validated (lines 118-119). -/
def glfwConstructChecked : List (CtxAction × Bool) :=
  [(CtxAction.glfwInit, false), (CtxAction.glfwCreateWindow, true),
   (CtxAction.glfwMakeContextCurrent, false), (CtxAction.glViewport, false)]

theorem listGetInt_natCast (l : List Nat) (i : Nat) :
    listGetInt l (i : Int) = l[i]? := by
  simp [listGetInt]

theorem listGetInt_neg (l : List Nat) (i : Int) (h : i < 0) :
    listGetInt l i = none := by
  simp [listGetInt, not_le.mpr h]

theorem listGetInt_mem (l : List Nat) (i : Int) (x : Nat)
    (h : listGetInt l i = some x) : x ∈ l := by
  unfold listGetInt at h
  split at h
  · exact List.getElem?_mem h
  · exact absurd h (by simp)

theorem counterAfterConstructions_eq (k : Nat) :
    counterAfterConstructions k = (k : Int) := by
  induction k with
  | zero => rfl
  | succ k ih =>
      simp only [counterAfterConstructions, eglConstructCounter, ih]
      push_cast
      ring

/-- C2: after k successful constructions and j destructions the counter
equals k, not k - j: the destructor decrement is disabled in the source,
so the claimed invariant counter = k - j fails whenever j > 0. -/
theorem c2_counter_never_decremented (k j : Nat) : counterAfter k j = (k : Int) := by
  induction j with
  | zero => simpa [counterAfter] using counterAfterConstructions_eq k
  | succ j ih => simpa [counterAfter, eglDestructCounter] using ih

/-- C4: the device-direct configuration negotiation succeeds exactly when
the returned config count is 1, and a query returning 2 matching configs
aborts with the fatal config message. -/
theorem c4_config_count (numConfigs : Int) :
    (eglConfigCountCheck numConfigs = Except.ok () ↔ numConfigs = 1) ∧
    eglConfigCountCheck 2 = Except.error eglChooseConfigMsg := by
  refine ⟨?_, rfl⟩
  unfold eglConfigCountCheck
  split
  · simp_all
  · simp_all

/-- C7: enumeration reporting zero devices aborts with the no-devices
error for every requested index; with exactly one enumerated device the
visibility set is {0} independently of the probe, logical index 0
resolves to physical device 0, and logical index 1 aborts out of range. -/
theorem c7_device_count_classification (readable : Nat → Bool) :
    (∀ device : Int, resolvePhysical readable 0 device = Except.error EglError.noDevices) ∧
    visible_devices readable 1 = [0] ∧
    resolvePhysical readable 1 0 = Except.ok (some 0) ∧
    resolvePhysical readable 1 1 = Except.error (EglError.outOfRange 1 1) := by
  refine ⟨fun device => rfl, rfl, rfl, rfl⟩

/-- C8 counterexample: printInfo writes six lines to the diagnostic
stream, not five as claimed. -/
theorem c8_not_five_lines : (printInfo "a" "b" "c" "d").length ≠ 5 := by decide

/-- C8 amended: printInfo, called with a context current, writes exactly
six lines: an opening banner, the API version, the shading-language
version, the vendor, the renderer, and a closing banner. -/
theorem c8_six_lines (glVersion glslVersion vendor renderer : String) :
    (printInfo glVersion glslVersion vendor renderer).length = 6 ∧
    (printInfo glVersion glslVersion vendor renderer).head? =
      some "----------- OpenGL Context Info --------------" ∧
    (printInfo glVersion glslVersion vendor renderer)[1]? =
      some ("GL Version: " ++ glVersion) ∧
    (printInfo glVersion glslVersion vendor renderer)[2]? =
      some ("GLSL Version: " ++ glslVersion) ∧
    (printInfo glVersion glslVersion vendor renderer)[3]? =
      some ("Vendor: " ++ vendor) ∧
    (printInfo glVersion glslVersion vendor renderer)[4]? =
      some ("Renderer: " ++ renderer) ∧
    (printInfo glVersion glslVersion vendor renderer).getLast? =
      some "----------------------------------------------" :=
  ⟨rfl, rfl, rfl, rfl, rfl, rfl, rfl⟩

/-- C3 counterexample: the display-backed (GLX) destructor sequence is
not the strict reverse of the teardowns of its construction sequence:
the strict reverse would destroy the pbuffer before the context, but the
destructor destroys the context first. -/
theorem c3_glx_teardown_not_reverse :
    glxDestroySeq ≠ (glxConstructSeq.filterMap glxTeardownOf).reverse := by decide

/-- C3 amended: the device-direct backend destructor (destroy context,
terminate display) is the strict reverse of the resource-acquiring
construction calls; the display-backed backend destructor clears the
current context first and closes the display last, but destroys the
context before the drawable, the same relative order in which they were
created, so it differs from the strict reverse exactly by that swap. -/
theorem c3_teardown_order :
    eglDestroySeq = (eglConstructSeq.filterMap eglTeardownOf).reverse ∧
    glxDestroySeq = [CtxAction.glXUnmakeContextCurrent, CtxAction.glXDestroyContext,
                     CtxAction.glXDestroyPbuffer, CtxAction.xCloseDisplay] ∧
    (glxConstructSeq.filterMap glxTeardownOf).reverse =
      [CtxAction.glXUnmakeContextCurrent, CtxAction.glXDestroyPbuffer,
       CtxAction.glXDestroyContext, CtxAction.xCloseDisplay] := by decide

/-- C5 counterexample: not every native call is validated by a check
placed immediately after it: the display-backed backend context-creation
call has no check after it. -/
theorem c5_glx_context_creation_unchecked :
    (CtxAction.glXCreateContextAttribsARB, false) ∈ glxConstructChecked := by decide

/-- C5 amended: in the device-direct backend every native call except the
platform-display query and the viewport call is followed by a validation
check, and in particular the context-creation call is validated before
the make-current call; the display-backed backend validates only the
display connection and the make-current call, and the windowed backend
validates only window creation. -/
theorem c5_checked_calls :
    ((eglConstructChecked.filter fun p => p.2).map Prod.fst =
      [CtxAction.eglGetProcAddress, CtxAction.eglQueryDevicesEXT,
       CtxAction.eglInitialize, CtxAction.eglChooseConfig, CtxAction.eglBindAPI,
       CtxAction.eglCreateContext, CtxAction.eglMakeCurrent]) ∧
    ((eglConstructChecked.filter fun p => !p.2).map Prod.fst =
      [CtxAction.eglGetPlatformDisplayEXT, CtxAction.glViewport]) ∧
    (CtxAction.eglCreateContext, true) ∈ eglConstructChecked ∧
    (eglConstructChecked.map Prod.fst).indexOf CtxAction.eglCreateContext <
      (eglConstructChecked.map Prod.fst).indexOf CtxAction.eglMakeCurrent ∧
    ((glxConstructChecked.filter fun p => p.2).map Prod.fst =
      [CtxAction.xOpenDisplay, CtxAction.glXMakeContextCurrent]) ∧
    ((glfwConstructChecked.filter fun p => p.2).map Prod.fst =
      [CtxAction.glfwCreateWindow]) := by decide

/-- C6 counterexample: in the device-direct constructor the counter
increment does not occur after the make-current call: it is not the case
that make-current precedes the increment and the increment precedes the
viewport call. -/
theorem c6_increment_not_after_make_current :
    ¬ (eglConstructSeq.indexOf CtxAction.eglMakeCurrent <
         eglConstructSeq.indexOf CtxAction.counterIncrement ∧
       eglConstructSeq.indexOf CtxAction.counterIncrement <
         eglConstructSeq.indexOf CtxAction.glViewport) := by decide

/-- C6 amended: the live-context counter increment is the first action of
the device-direct constructor, before all native initialization; the
make-current call precedes the viewport call, which is last. -/
theorem c6_increment_first :
    eglConstructSeq.indexOf CtxAction.counterIncrement = 0 ∧
    eglConstructSeq.indexOf CtxAction.counterIncrement <
      eglConstructSeq.indexOf CtxAction.eglMakeCurrent ∧
    eglConstructSeq.indexOf CtxAction.eglMakeCurrent <
      eglConstructSeq.indexOf CtxAction.glViewport ∧
    eglConstructSeq.indexOf CtxAction.glViewport = eglConstructSeq.length - 1 := by
  decide

theorem visible_devices_sorted (readable : Nat → Bool) (N : Nat) :
    List.Sorted (fun a b => a < b) (visible_devices readable N) := by
  unfold visible_devices
  split
  · exact List.Pairwise.filter readable (List.sorted_lt_range N)
  · split
    · simp
    · simp

theorem mem_visible_devices (readable : Nat → Bool) (N : Nat) (hN : 1 < N) (j : Nat) :
    j ∈ visible_devices readable N ↔ j < N ∧ readable j = true := by
  simp [visible_devices, if_pos hN, List.mem_filter, List.mem_range]

theorem visible_devices_lt (readable : Nat → Bool) (N : Nat) (j : Nat)
    (h : j ∈ visible_devices readable N) : j < N := by
  unfold visible_devices at h
  split at h
  · exact List.mem_range.mp (List.mem_of_mem_filter h)
  · split at h
    · simp_all
    · simp at h

theorem visible_devices_full (readable : Nat → Bool) (N : Nat)
    (h : (visible_devices readable N).length = N) :
    visible_devices readable N = List.range N := by
  by_cases hN : 1 < N
  · rw [visible_devices, if_pos hN] at h ⊢
    exact (List.filter_sublist (List.range N)).eq_of_length
      (by simpa [List.length_range] using h)
  · by_cases h1 : N = 1
    · subst h1
      rfl
    · rw [visible_devices, if_neg hN, if_neg h1] at h ⊢
      simp only [List.length_nil] at h
      rw [← h]
      rfl

/-- C1: for every enumerated device count N >= 1 and probe outcome, the
visibility set S is sorted strictly ascending and (for N > 1) consists
exactly of the readable enumeration indices below N; resolving a logical
index i < |S| yields the i-th entry of S, hence the i-th smallest element
of S; when |S| = N the physical index equals the logical index; and any
i >= |S| aborts with the out-of-range error. -/
theorem c1_resolver_ith_smallest (N : Nat) (readable : Nat → Bool) (i : Nat) :
    List.Sorted (fun a b => a < b) (visible_devices readable N) ∧
    (1 < N → ∀ j, (j ∈ visible_devices readable N ↔ j < N ∧ readable j = true)) ∧
    (i < (visible_devices readable N).length →
      resolvePhysical readable N ((i : Int)) =
        Except.ok ((visible_devices readable N)[i]?)) ∧
    ((visible_devices readable N).length = N → i < N →
      resolvePhysical readable N ((i : Int)) = Except.ok (some i)) ∧
    (1 ≤ N → (visible_devices readable N).length ≤ i →
      resolvePhysical readable N ((i : Int)) =
        Except.error (EglError.outOfRange ((i : Int))
          (visible_devices readable N).length)) := by
  refine ⟨visible_devices_sorted readable N,
    fun hN j => mem_visible_devices readable N hN j, ?_, ?_, ?_⟩
  · intro h
    have hN0 : N ≠ 0 := by
      intro h0
      subst h0
      simp [visible_devices] at h
    have hle : ¬ (((visible_devices readable N).length : Int) ≤ (i : Int)) := by
      omega
    rw [resolvePhysical, if_neg hN0, if_neg hle]
    by_cases hfull : (visible_devices readable N).length = N
    · rw [if_pos hfull, listGetInt_natCast, visible_devices_full readable N hfull]
    · rw [if_neg hfull, listGetInt_natCast, List.getElem?_eq_getElem h]
      have hmem : (visible_devices readable N)[i] ∈ visible_devices readable N :=
        List.getElem_mem h
      have hlt : (visible_devices readable N)[i] < N :=
        visible_devices_lt readable N _ hmem
      show Except.ok (listGetInt (List.range N) ((visible_devices readable N)[i] : Int)) =
        Except.ok (some (visible_devices readable N)[i])
      rw [listGetInt_natCast, List.getElem?_range hlt]
  · intro hfull hi
    have hN0 : N ≠ 0 := by omega
    have hle : ¬ (((visible_devices readable N).length : Int) ≤ (i : Int)) := by
      omega
    rw [resolvePhysical, if_neg hN0, if_neg hle, if_pos hfull, listGetInt_natCast,
      List.getElem?_range hi]
  · intro hN hle
    have hN0 : N ≠ 0 := by omega
    have hle2 : ((visible_devices readable N).length : Int) ≤ (i : Int) := by omega
    rw [resolvePhysical, if_neg hN0, if_pos hle2]

/-- C1 witness: with three enumerated devices of which 0 and 2 are
readable, the visibility set has two entries and logical index 1
resolves to physical device 2 (spec scenario B). -/
theorem c1_resolver_witness :
    1 < (visible_devices (fun j => j == 0 || j == 2) 3).length ∧
    resolvePhysical (fun j => j == 0 || j == 2) 3 (((1 : Nat) : Int)) =
      Except.ok ((visible_devices (fun j => j == 0 || j == 2) 3)[1]?) ∧
    (visible_devices (fun j => j == 0 || j == 2) 3)[1]? = some 2 :=
  ⟨by decide,
   (c1_resolver_ith_smallest 3 (fun j => j == 0 || j == 2) 1).2.2.1 (by decide),
   by decide⟩

/-- C9: the out-of-range check fires exactly when the requested logical
index is at least the visibility-set size; a negative logical index is
never rejected and flows into the unguarded device-array indexing, which
the embedding models as none; a successful resolution to a physical
device happens only for logical indices inside the visibility range and
yields a physical index below the enumerated count. -/
theorem c9_negative_flows_unguarded (readable : Nat → Bool) (N : Nat) (hN : 1 ≤ N)
    (device : Int) :
    (resolvePhysical readable N device =
        Except.error (EglError.outOfRange device (visible_devices readable N).length) ↔
      ((visible_devices readable N).length : Int) ≤ device) ∧
    (device < 0 → resolvePhysical readable N device = Except.ok none) ∧
    (∀ x : Nat, resolvePhysical readable N device = Except.ok (some x) →
      0 ≤ device ∧ device < ((visible_devices readable N).length : Int) ∧ x < N) := by
  have hN0 : N ≠ 0 := by omega
  refine ⟨?_, ?_, ?_⟩
  · constructor
    · intro h
      by_contra hle
      rw [resolvePhysical, if_neg hN0, if_neg hle] at h
      split at h
      · exact Except.noConfusion h
      · exact Except.noConfusion h
    · intro hle
      rw [resolvePhysical, if_neg hN0, if_pos hle]
  · intro hneg
    have hle : ¬ (((visible_devices readable N).length : Int) ≤ device) := by omega
    rw [resolvePhysical, if_neg hN0, if_neg hle]
    by_cases hfull : (visible_devices readable N).length = N
    · rw [if_pos hfull, listGetInt_neg _ _ hneg]
    · rw [if_neg hfull, listGetInt_neg _ _ hneg]
      rfl
  · intro x hx
    have hle : ¬ (((visible_devices readable N).length : Int) ≤ device) := by
      intro hle
      rw [resolvePhysical, if_neg hN0, if_pos hle] at hx
      exact Except.noConfusion hx
    have hpos : 0 ≤ device := by
      by_contra hneg
      push_neg at hneg
      rw [resolvePhysical, if_neg hN0, if_neg hle] at hx
      by_cases hfull : (visible_devices readable N).length = N
      · rw [if_pos hfull, listGetInt_neg _ _ hneg] at hx
        simp at hx
      · rw [if_neg hfull, listGetInt_neg _ _ hneg] at hx
        simp [Option.map, Option.bind] at hx
    refine ⟨hpos, by omega, ?_⟩
    rw [resolvePhysical, if_neg hN0, if_neg hle] at hx
    by_cases hfull : (visible_devices readable N).length = N
    · rw [if_pos hfull] at hx
      have hx2 : listGetInt (List.range N) device = some x := by
        injection hx
      exact List.mem_range.mp (listGetInt_mem _ _ _ hx2)
    · rw [if_neg hfull] at hx
      have hx2 : ((listGetInt (visible_devices readable N) device).map
          (fun v => (v : Int))).bind (fun p => listGetInt (List.range N) p) = some x := by
        injection hx
      rcases Option.bind_eq_some.mp hx2 with ⟨p, hp, hpx⟩
      exact List.mem_range.mp (listGetInt_mem _ _ _ hpx)

/-- C9 witness: with two enumerated devices both readable, the requested
logical index -1 is not rejected by the out-of-range check and reaches
the unguarded array access. -/
theorem c9_negative_flows_witness :
    1 ≤ 2 ∧ (-1 : Int) < 0 ∧
    resolvePhysical (fun _ => true) 2 (-1) = Except.ok none :=
  ⟨by decide, by decide,
   (c9_negative_flows_unguarded (fun _ => true) 2 (by decide) (-1)).2.1 (by decide)⟩

/-- C10: with more than one enumerated device and no readable device
file, the visibility set is empty and every requested logical index at
least 0 aborts with the out-of-range error reporting 0 found devices;
the distinct no-devices error arises only when enumeration itself
returns zero devices. -/
theorem c10_empty_visibility (N : Nat) (hN : 1 < N) (readable : Nat → Bool)
    (hr : ∀ i, readable i = false) (device : Int) (hd : 0 ≤ device) :
    resolvePhysical readable N device = Except.error (EglError.outOfRange device 0) ∧
    (∀ M : Nat, ∀ f : Nat → Bool, ∀ d : Int,
      resolvePhysical f M d = Except.error EglError.noDevices → M = 0) := by
  constructor
  · have hv : visible_devices readable N = [] := by
      rw [visible_devices, if_pos hN]
      simp [hr]
    have hN0 : N ≠ 0 := by omega
    rw [resolvePhysical, if_neg hN0, hv]
    rw [if_pos (by simpa using hd)]
    rfl
  · intro M f d h
    by_cases hM : M = 0
    · exact hM
    · rw [resolvePhysical, if_neg hM] at h
      split at h
      · simp at h
      · split at h
        · exact Except.noConfusion h
        · exact Except.noConfusion h

/-- C10 witness: three enumerated devices, none readable, requested
logical index 0: the constructor aborts out of range reporting 0 found
devices. -/
theorem c10_empty_visibility_witness :
    1 < 3 ∧ (∀ i : Nat, (fun _ : Nat => false) i = false) ∧ (0 : Int) ≤ 0 ∧
    resolvePhysical (fun _ => false) 3 0 = Except.error (EglError.outOfRange 0 0) :=
  ⟨by decide, fun i => rfl, by decide,
   (c10_empty_visibility 3 (by decide) (fun _ => false) (fun i => rfl) 0 (by decide)).1⟩
